import Mathlib

/-!
Verification development for the messaging core of the global-connect
backend (NestJS + Prisma). The Persistent Store is modelled as lists of
rows; each ChatService operation is a pure function from a store to a
result paired with the store it leaves behind. Prisma findFirst and
findUnique become List.find?, create becomes an append, update becomes a
map over the row list, and thrown NestJS exceptions become an error sum.
Generated row identifiers are threaded in as explicit fresh-id arguments.
Timestamps and media metadata are not modelled; no property below
depends on them.
-/

namespace GlobalConnect

/-- ConnectionStatus enum from the Prisma schema. -/
inductive ConnectionStatus where
  | PENDING
  | ACCEPTED
  | BLOCKED
  | REMOVED
deriving DecidableEq, Repr

/-- MessageStatus enum from the Prisma schema. -/
inductive MessageStatus where
  | SENT
  | DELIVERED
  | READ
deriving DecidableEq, Repr

/-- MessageContentType enum from the Prisma schema. -/
inductive MessageContentType where
  | TEXT
  | EMOJI
  | GIF
  | IMAGE
  | VIDEO
  | FILE
  | AUDIO
deriving DecidableEq, Repr

/-- ReactionType enum from the Prisma schema. -/
inductive ReactionType where
  | EMOJI
  | LIKE
  | LOVE
  | HAHA
  | WOW
  | SAD
  | ANGRY
deriving DecidableEq, Repr

/-- User row (fields the messaging core touches: id, username, online). -/
structure User where
  id : String
  username : String
  online : Bool
deriving DecidableEq, Repr

/-- Connection row: ordered (requesterId, receiverId) pair with a status. -/
structure Connection where
  id : Nat
  requesterId : String
  receiverId : String
  status : ConnectionStatus
deriving DecidableEq, Repr

/-- Message row (dual linkage: conversationId and connectionId). -/
structure Message where
  id : String
  content : String
  contentType : MessageContentType
  status : MessageStatus
  isRead : Bool
  senderId : String
  conversationId : String
  connectionId : Nat
deriving DecidableEq, Repr

/-- Reaction row; unique index on (messageId, userId, type). -/
structure Reaction where
  id : String
  type : ReactionType
  emoji : Option String
  messageId : String
  userId : String
deriving DecidableEq, Repr

/-- Conversation row with its participant user ids. -/
structure Conversation where
  id : String
  participants : List String
deriving DecidableEq, Repr

/-- The Persistent Store: one list per table. -/
structure Store where
  users : List User
  connections : List Connection
  conversations : List Conversation
  messages : List Message
  reactions : List Reaction
deriving DecidableEq, Repr

/-- Error sum for the NestJS exception classes reachable from the
messaging core (NotFoundException, BadRequestException,
ConflictException, ForbiddenException, UnauthorizedException), each
carrying its message string. -/
inductive ChatError where
  | notFound : String → ChatError
  | badRequest : String → ChatError
  | conflict : String → ChatError
  | forbidden : String → ChatError
  | unauthorized : String → ChatError
deriving DecidableEq, Repr

/-- The message property of a thrown exception, as read by the gateway
catch blocks. -/
def ChatError.msg : ChatError → String
  | .notFound s => s
  | .badRequest s => s
  | .conflict s => s
  | .forbidden s => s
  | .unauthorized s => s

/-- True exactly on ConflictException values. -/
def ChatError.isConflict : ChatError → Bool
  | .conflict _ => true
  | _ => false

/-- True exactly on ForbiddenException values. -/
def ChatError.isForbidden : ChatError → Bool
  | .forbidden _ => true
  | _ => false

def connectionNotFoundMsg : String := "Connection not found"

def messageNotFoundMsg : String := "Message not found"

def reactionExistsMsg : String := "Reaction already exists"

def reactionNotFoundMsg : String := "Reaction not found"

def conversationNotFoundMsg : String := "Conversation not found"

def noOtherParticipantMsg : String := "No other participant found in conversation"

def invalidReactionTypeMsg : String :=
  "Invalid reaction type. Valid types are: EMOJI, LIKE, LOVE, HAHA, WOW, SAD, ANGRY"

def uniqueConnViolationMsg : String :=
  "Unique constraint failed on Connection(requesterId, receiverId)"

def userNotFoundMsg : String := "User not found"

/-- The findFirst predicate shared by sendMessage and markMessagesAsSeen:
the Connection with the given id whose requester or receiver is the
caller and whose status is ACCEPTED. -/
def sendableConn (connectionId : Nat) (userId : String) (c : Connection) : Bool :=
  decide (c.id = connectionId ∧
    (c.requesterId = userId ∨ c.receiverId = userId) ∧
    c.status = ConnectionStatus.ACCEPTED)

/-- Whether the store holds a Connection passing sendableConn. -/
def hasSendableConn (st : Store) (connectionId : Nat) (userId : String) : Bool :=
  (st.connections.find? (sendableConn connectionId userId)).isSome

/-- ChatService.sendMessage: findFirst an ACCEPTED Connection with the
given id having the sender as requester or receiver; throw
NotFoundException if absent; otherwise create the Message with
status SENT (isRead defaults to false in the schema) and return it. -/
def sendMessage (st : Store) (freshId : String) (connectionId : Nat)
    (userId : String) (content : String)
    (contentType : MessageContentType := MessageContentType.TEXT) :
    Except ChatError Message × Store :=
  match st.connections.find? (sendableConn connectionId userId) with
  | none => (Except.error (ChatError.notFound connectionNotFoundMsg), st)
  | some _ =>
    let m : Message :=
      { id := freshId
        content := content
        contentType := contentType
        status := MessageStatus.SENT
        isRead := false
        senderId := userId
        conversationId := toString connectionId
        connectionId := connectionId }
    (Except.ok m, { st with messages := st.messages ++ [m] })

/-- Acknowledgement object returned by markMessagesAsSeen. -/
structure SeenAck where
  success : Bool
  updatedCount : Nat
deriving DecidableEq, Repr

/-- ChatService.markMessagesAsSeen: validate the caller is a participant
of an ACCEPTED Connection with the given id (NotFoundException
otherwise), then return success with a fixed updatedCount of 0 without
touching any Message row. -/
def markMessagesAsSeen (st : Store) (connectionId : Nat) (userId : String) :
    Except ChatError SeenAck × Store :=
  match st.connections.find? (sendableConn connectionId userId) with
  | none => (Except.error (ChatError.notFound connectionNotFoundMsg), st)
  | some _ => (Except.ok { success := true, updatedCount := 0 }, st)

/-- The reactions of a message, as populated by the Prisma include. -/
def reactionsOf (st : Store) (messageId : String) : List Reaction :=
  st.reactions.filter (fun r => decide (r.messageId = messageId))

/-- The findUnique predicate for a message primary key. -/
def msgIdMatch (messageId : String) (m : Message) : Bool :=
  decide (m.id = messageId)

/-- A Message row together with its included reactions. -/
structure MessageWithReactions where
  message : Message
  reactions : List Reaction
deriving DecidableEq, Repr

/-- ChatService.updateMessageStatus: findUnique the message
(NotFoundException if absent), then update only its status field and
return the updated row with reactions included. The isRead field is not
written. -/
def updateMessageStatus (st : Store) (messageId : String)
    (status : MessageStatus) :
    Except ChatError MessageWithReactions × Store :=
  match st.messages.find? (msgIdMatch messageId) with
  | none => (Except.error (ChatError.notFound messageNotFoundMsg), st)
  | some m =>
    let m' : Message := { m with status := status }
    let st' : Store :=
      { st with
        messages :=
          st.messages.map (fun x => if x.id = messageId then m' else x) }
    (Except.ok { message := m', reactions := reactionsOf st' messageId }, st')

/-- ChatService.markMessageAsRead: findUnique the message
(NotFoundException if absent), then set isRead to true and status to
READ together and return the updated row with reactions included. -/
def markMessageAsRead (st : Store) (messageId : String) :
    Except ChatError MessageWithReactions × Store :=
  match st.messages.find? (msgIdMatch messageId) with
  | none => (Except.error (ChatError.notFound messageNotFoundMsg), st)
  | some m =>
    let m' : Message := { m with isRead := true, status := MessageStatus.READ }
    let st' : Store :=
      { st with
        messages :=
          st.messages.map (fun x => if x.id = messageId then m' else x) }
    (Except.ok { message := m', reactions := reactionsOf st' messageId }, st')

/-- Payload of a reaction creation request (CreateReactionDto). -/
structure CreateReactionDto where
  messageId : String
  type : ReactionType
  emoji : Option String
deriving DecidableEq, Repr

/-- The find predicate used on message.reactions inside addReaction: a
reaction by this user with this type. -/
def sameUserAndType (userId : String) (type : ReactionType) (r : Reaction) : Bool :=
  decide (r.userId = userId ∧ r.type = type)

/-- ChatService.addReaction: findUnique the message with its reactions
(NotFoundException if absent); throw BadRequestException when the user
already reacted on it with this type; otherwise create the Reaction row
and return the re-fetched message with its reactions populated. -/
def addReaction (st : Store) (freshId : String) (userId : String)
    (dto : CreateReactionDto) :
    Except ChatError MessageWithReactions × Store :=
  match st.messages.find? (msgIdMatch dto.messageId) with
  | none => (Except.error (ChatError.notFound messageNotFoundMsg), st)
  | some m =>
    match (reactionsOf st dto.messageId).find? (sameUserAndType userId dto.type) with
    | some _ => (Except.error (ChatError.badRequest reactionExistsMsg), st)
    | none =>
      let r : Reaction :=
        { id := freshId
          type := dto.type
          emoji := dto.emoji
          messageId := dto.messageId
          userId := userId }
      let st' : Store := { st with reactions := st.reactions ++ [r] }
      (Except.ok { message := m, reactions := reactionsOf st' dto.messageId }, st')

/-- The string name of a ReactionType value, as serialized over the
socket protocol. -/
def reactionTypeName : ReactionType → String
  | .EMOJI => "EMOJI"
  | .LIKE => "LIKE"
  | .LOVE => "LOVE"
  | .HAHA => "HAHA"
  | .WOW => "WOW"
  | .SAD => "SAD"
  | .ANGRY => "ANGRY"

/-- Object.values(ReactionType) in declaration order. -/
def reactionTypeValues : List ReactionType :=
  [.EMOJI, .LIKE, .LOVE, .HAHA, .WOW, .SAD, .ANGRY]

/-- The isReactionType narrowing guard: a string is a reaction type when
it names one of the enum values. -/
def parseReactionType (s : String) : Option ReactionType :=
  reactionTypeValues.find? (fun t => decide (reactionTypeName t = s))

/-- The findFirst predicate of removeReaction: the Reaction on this
message by this user with this type. -/
def reactionMatch (messageId : String) (userId : String) (t : ReactionType)
    (r : Reaction) : Bool :=
  decide (r.messageId = messageId ∧ r.userId = userId ∧ r.type = t)

/-- How many reactions of the store lie on the given message by the
given user with the given type. -/
def countUT (st : Store) (messageId : String) (userId : String)
    (t : ReactionType) : Nat :=
  st.reactions.countP (reactionMatch messageId userId t)

/-- ChatService.removeReaction: reject a string that is not a
ReactionType with BadRequestException; findFirst the Reaction for
(messageId, userId, type) and throw NotFoundException if absent;
otherwise delete it by id and return the re-fetched message with its
remaining reactions. -/
def removeReaction (st : Store) (userId : String) (messageId : String)
    (type : String) :
    Except ChatError MessageWithReactions × Store :=
  match parseReactionType type with
  | none => (Except.error (ChatError.badRequest invalidReactionTypeMsg), st)
  | some t =>
    match st.reactions.find? (reactionMatch messageId userId t) with
    | none => (Except.error (ChatError.notFound reactionNotFoundMsg), st)
    | some reaction =>
      let st' : Store :=
        { st with reactions := st.reactions.filter (fun r => decide (r.id ≠ reaction.id)) }
      match st'.messages.find? (msgIdMatch messageId) with
      | none => (Except.error (ChatError.notFound messageNotFoundMsg), st')
      | some m =>
        (Except.ok { message := m, reactions := reactionsOf st' messageId }, st')

/-- The findFirst predicate of the find-or-create step in createMessage:
an ACCEPTED Connection between the two users in either orientation. -/
def acceptedBetween (a b : String) (c : Connection) : Bool :=
  decide (((c.requesterId = a ∧ c.receiverId = b) ∨
    (c.requesterId = b ∧ c.receiverId = a)) ∧
    c.status = ConnectionStatus.ACCEPTED)

/-- ChatService.createMessage: findUnique the conversation with its
participants (NotFoundException if absent); resolve the first
participant other than the sender (BadRequestException if none);
findFirst an ACCEPTED Connection between the two in either orientation
and lazily create one with status ACCEPTED when none exists (the create
is rejected by the unique index on the ordered (requesterId, receiverId)
pair when a row with that exact orientation already exists); then create
the Message with status SENT and contentType TEXT. -/
def createMessage (st : Store) (freshMsgId : String) (freshConnId : Nat)
    (conversationId : String) (senderId : String) (content : String) :
    Except ChatError Message × Store :=
  match st.conversations.find? (fun cv => decide (cv.id = conversationId)) with
  | none => (Except.error (ChatError.notFound conversationNotFoundMsg), st)
  | some conv =>
    match conv.participants.find? (fun p => decide (p ≠ senderId)) with
    | none => (Except.error (ChatError.badRequest noOtherParticipantMsg), st)
    | some other =>
      let found := st.connections.find? (acceptedBetween senderId other)
      match found with
      | some conn =>
        let m : Message :=
          { id := freshMsgId
            content := content
            contentType := MessageContentType.TEXT
            status := MessageStatus.SENT
            isRead := false
            senderId := senderId
            conversationId := conversationId
            connectionId := conn.id }
        (Except.ok m, { st with messages := st.messages ++ [m] })
      | none =>
        if st.connections.any (fun c =>
            decide (c.requesterId = senderId ∧ c.receiverId = other)) then
          (Except.error (ChatError.conflict uniqueConnViolationMsg), st)
        else
          let conn : Connection :=
            { id := freshConnId
              requesterId := senderId
              receiverId := other
              status := ConnectionStatus.ACCEPTED }
          let st1 : Store := { st with connections := st.connections ++ [conn] }
          let m : Message :=
            { id := freshMsgId
              content := content
              contentType := MessageContentType.TEXT
              status := MessageStatus.SENT
              isRead := false
              senderId := senderId
              conversationId := conversationId
              connectionId := conn.id }
          (Except.ok m, { st1 with messages := st1.messages ++ [m] })

/-- UsersService.updateOnlineStatus: update the User row by id, setting
the online flag (the ORM rejects an update of an absent row). -/
def updateOnlineStatus (users : List User) (id : String) (online : Bool) :
    Except ChatError (List User) :=
  if users.any (fun u => decide (u.id = id)) then
    Except.ok (users.map (fun u => if u.id = id then { u with online := online } else u))
  else
    Except.error (ChatError.notFound userNotFoundMsg)

/-- A live socket connection: its socket id and its authenticated user. -/
structure SocketConn where
  sid : String
  userId : String
deriving DecidableEq, Repr

/-- ChatGateway.handleDisconnect: unconditionally set the disconnecting
socket user online flag to false via updateOnlineStatus, and drop the
socket from the set of live sockets; no check for other live sockets of
the same user is performed. -/
def handleDisconnect (users : List User) (live : List SocketConn)
    (client : SocketConn) :
    Except ChatError (List User × List SocketConn) :=
  match updateOnlineStatus users client.userId false with
  | Except.error e => Except.error e
  | Except.ok users' =>
    Except.ok (users', live.filter (fun s => decide (s.sid ≠ client.sid)))

/-- What a gateway handler invocation yields on the transport: a
success acknowledgement, a structured failure acknowledgement carrying
the error message string, or an exception that escaped the handler
body (there is no catch around it). -/
inductive HandlerResult where
  | success : HandlerResult
  | failureAck : String → HandlerResult
  | raised : ChatError → HandlerResult
deriving DecidableEq, Repr

/-- True exactly on structured failure acknowledgements. -/
def HandlerResult.isFailureAck : HandlerResult → Bool
  | .failureAck _ => true
  | _ => false

/-- True exactly when an exception escaped the handler. -/
def HandlerResult.isRaised : HandlerResult → Bool
  | .raised _ => true
  | _ => false

/-- Payload of the message:send event (the conversationId field is
passed to sendMessage as the connection id; contentType is optional). -/
structure SendMessagePayload where
  conversationId : Nat
  content : String
  contentType : Option MessageContentType
deriving DecidableEq, Repr

/-- ChatGateway.handleSendMessage (message:send): calls sendMessage and
emits on success; the body has no try/catch, so a service exception
escapes the handler. -/
def handleSendMessage (st : Store) (freshId : String) (userId : String)
    (p : SendMessagePayload) : HandlerResult × Store :=
  match sendMessage st freshId p.conversationId userId p.content
      (p.contentType.getD MessageContentType.TEXT) with
  | (Except.error e, st') => (HandlerResult.raised e, st')
  | (Except.ok _, st') => (HandlerResult.success, st')

/-- ChatGateway.handleMarkSeen (message:mark-seen): calls
markMessagesAsSeen and emits on success; the body has no try/catch, so
a service exception escapes the handler. -/
def handleMarkSeen (st : Store) (userId : String) (conversationId : Nat) :
    HandlerResult × Store :=
  match markMessagesAsSeen st conversationId userId with
  | (Except.error e, st') => (HandlerResult.raised e, st')
  | (Except.ok _, st') => (HandlerResult.success, st')

/-- Payload of the message.reaction event. -/
structure ReactionEventData where
  messageId : String
  type : ReactionType
  emoji : Option String
deriving DecidableEq, Repr

/-- ChatGateway.handleMessageReaction (message.reaction): calls
addReaction inside try/catch; a thrown error is converted into a
structured failure acknowledgement carrying its message. -/
def handleMessageReaction (st : Store) (freshId : String) (user : User)
    (data : ReactionEventData) : HandlerResult × Store :=
  match addReaction st freshId user.id
      { messageId := data.messageId, type := data.type, emoji := data.emoji } with
  | (Except.ok _, st') => (HandlerResult.success, st')
  | (Except.error e, st') => (HandlerResult.failureAck e.msg, st')

/-- Payload of the message.reaction.remove event (type arrives as a
raw string). -/
structure ReactionRemoveData where
  messageId : String
  type : String
deriving DecidableEq, Repr

/-- ChatGateway.handleMessageReactionRemove (message.reaction.remove):
calls removeReaction inside try/catch. -/
def handleMessageReactionRemove (st : Store) (user : User)
    (data : ReactionRemoveData) : HandlerResult × Store :=
  match removeReaction st user.id data.messageId data.type with
  | (Except.ok _, st') => (HandlerResult.success, st')
  | (Except.error e, st') => (HandlerResult.failureAck e.msg, st')

/-- ChatGateway.handleMessageStatus (message.status): calls
updateMessageStatus inside try/catch; the authenticated user is
received but not consulted. -/
def handleMessageStatus (st : Store) (user : User) (messageId : String)
    (status : MessageStatus) : HandlerResult × Store :=
  match updateMessageStatus st messageId status with
  | (Except.ok _, st') => (HandlerResult.success, st')
  | (Except.error e, st') => (HandlerResult.failureAck e.msg, st')

/-- ChatGateway.handleMessageRead (message.read): calls
markMessageAsRead inside try/catch; the authenticated user is received
but not consulted. -/
def handleMessageRead (st : Store) (user : User) (messageId : String) :
    HandlerResult × Store :=
  match markMessageAsRead st messageId with
  | (Except.ok _, st') => (HandlerResult.success, st')
  | (Except.error e, st') => (HandlerResult.failureAck e.msg, st')

/-- Whether an operation outcome is a ForbiddenException. -/
def opForbidden {α : Type} (res : Except ChatError α × Store) : Bool :=
  match res.1 with
  | Except.error e => e.isForbidden
  | Except.ok _ => false

/-! ### Concrete fixtures used by witnesses and counterexamples -/

def exUserA : User := { id := "alice", username := "Alice", online := true }

def exUserB : User := { id := "bob", username := "Bob", online := true }

def exUserC : User := { id := "carol", username := "Carol", online := false }

def exConn : Connection :=
  { id := 7, requesterId := "alice", receiverId := "bob",
    status := ConnectionStatus.ACCEPTED }

def exConv : Conversation := { id := "conv1", participants := ["alice", "bob"] }

def exMsg : Message :=
  { id := "m1", content := "hi", contentType := MessageContentType.TEXT,
    status := MessageStatus.SENT, isRead := false, senderId := "alice",
    conversationId := "conv1", connectionId := 7 }

def exStore : Store :=
  { users := [exUserA, exUserB, exUserC], connections := [exConn],
    conversations := [exConv], messages := [exMsg], reactions := [] }

def exReaction : Reaction :=
  { id := "r1", type := ReactionType.LIKE, emoji := none,
    messageId := "m1", userId := "bob" }

def exStoreLike : Store := { exStore with reactions := [exReaction] }

def exMsgRead : Message :=
  { exMsg with id := "m3", status := MessageStatus.READ, isRead := true }

def exStoreRead : Store := { exStore with messages := [exMsg, exMsgRead] }

def emptyStore : Store :=
  { users := [], connections := [], conversations := [],
    messages := [], reactions := [] }

def exStoreNoConn : Store := { exStore with connections := [] }

/-! ### Claim theorems -/

/-- C1: sendMessage fails with NotFound when the store holds no ACCEPTED
Connection with the given id whose requester or receiver is the sender;
when such a connection exists it succeeds and the returned Message has
status SENT, the given content and the given sender. -/
theorem sendMessage_notFound_or_sent (st : Store) (freshId : String)
    (connectionId : Nat) (userId : String) (content : String)
    (ct : MessageContentType) :
    (hasSendableConn st connectionId userId = false →
      sendMessage st freshId connectionId userId content ct =
        (Except.error (ChatError.notFound connectionNotFoundMsg), st)) ∧
    (hasSendableConn st connectionId userId = true →
      ∃ m st', sendMessage st freshId connectionId userId content ct =
        (Except.ok m, st') ∧
        m.status = MessageStatus.SENT ∧ m.content = content ∧
        m.senderId = userId) := by
  unfold hasSendableConn sendMessage
  cases h : st.connections.find? (sendableConn connectionId userId) with
  | none => simp
  | some c =>
    refine ⟨by simp, fun _ => ⟨_, _, rfl, rfl, rfl, rfl⟩⟩

/-- Witness for C1: in the fixture store, connection 7 is ACCEPTED with
alice as requester, so sendMessage succeeds with a SENT message. -/
theorem sendMessage_notFound_or_sent_witness :
    ∃ m st', sendMessage exStore "m2" 7 "alice" "yo" MessageContentType.TEXT =
      (Except.ok m, st') ∧
      m.status = MessageStatus.SENT ∧ m.content = "yo" ∧
      m.senderId = "alice" :=
  (sendMessage_notFound_or_sent exStore "m2" 7 "alice" "yo"
    MessageContentType.TEXT).2 (by decide)

/-- C4: updateMessageStatus fails with NotFound when the message is
absent; otherwise it writes the given status verbatim, for any status
value, with no monotonicity check. -/
theorem updateMessageStatus_spec (st : Store) (messageId : String)
    (s : MessageStatus) :
    (st.messages.find? (msgIdMatch messageId) = none →
      updateMessageStatus st messageId s =
        (Except.error (ChatError.notFound messageNotFoundMsg), st)) ∧
    (∀ m, st.messages.find? (msgIdMatch messageId) = some m →
      ∃ mr st', updateMessageStatus st messageId s = (Except.ok mr, st') ∧
        mr.message = { m with status := s } ∧
        mr.message.status = s) := by
  constructor
  · intro h
    unfold updateMessageStatus
    rw [h]
  · intro m h
    unfold updateMessageStatus
    rw [h]
    exact ⟨_, _, rfl, rfl, rfl⟩

/-- Witness for C4: the fixture message m3 is READ, and
updateMessageStatus regresses it to SENT. -/
theorem updateMessageStatus_spec_witness :
    ∃ mr st', updateMessageStatus exStoreRead "m3" MessageStatus.SENT =
      (Except.ok mr, st') ∧
      mr.message = { exMsgRead with status := MessageStatus.SENT } ∧
      mr.message.status = MessageStatus.SENT :=
  (updateMessageStatus_spec exStoreRead "m3" MessageStatus.SENT).2
    exMsgRead (by decide)

/-- C5: markMessagesAsSeen fails with NotFound when the caller is not a
participant of an ACCEPTED Connection with the given id; otherwise it
returns success with updatedCount 0 and leaves the whole store, in
particular every Message row, unchanged. -/
theorem markMessagesAsSeen_spec (st : Store) (connectionId : Nat)
    (userId : String) :
    (hasSendableConn st connectionId userId = false →
      markMessagesAsSeen st connectionId userId =
        (Except.error (ChatError.notFound connectionNotFoundMsg), st)) ∧
    (hasSendableConn st connectionId userId = true →
      markMessagesAsSeen st connectionId userId =
        (Except.ok { success := true, updatedCount := 0 }, st)) := by
  unfold hasSendableConn markMessagesAsSeen
  cases h : st.connections.find? (sendableConn connectionId userId) <;> simp

/-- Witness for C5: bob participates in ACCEPTED connection 7, so
mark-seen succeeds with a zero count and an unchanged store. -/
theorem markMessagesAsSeen_spec_witness :
    markMessagesAsSeen exStore 7 "bob" =
      (Except.ok { success := true, updatedCount := 0 }, exStore) :=
  (markMessagesAsSeen_spec exStore 7 "bob").2 (by decide)

/-- C10: markMessageAsRead and updateMessageStatus, and the gateway
handlers message.status and message.read, consult no caller identity:
the handler outcome is the same for every authenticated user, the
operations succeed on any existing message, the only failure they
return is NotFound for an absent message, and neither ever returns
Forbidden. -/
theorem messageStatus_no_ownership_check (st : Store) (u1 u2 : User)
    (messageId : String) (s : MessageStatus) :
    (handleMessageStatus st u1 messageId s =
      handleMessageStatus st u2 messageId s) ∧
    (handleMessageRead st u1 messageId = handleMessageRead st u2 messageId) ∧
    (st.messages.any (msgIdMatch messageId) = true →
      (∃ mr st', updateMessageStatus st messageId s = (Except.ok mr, st')) ∧
      (∃ mr st', markMessageAsRead st messageId = (Except.ok mr, st'))) ∧
    (st.messages.any (msgIdMatch messageId) = false →
      updateMessageStatus st messageId s =
        (Except.error (ChatError.notFound messageNotFoundMsg), st) ∧
      markMessageAsRead st messageId =
        (Except.error (ChatError.notFound messageNotFoundMsg), st)) ∧
    opForbidden (updateMessageStatus st messageId s) = false ∧
    opForbidden (markMessageAsRead st messageId) = false := by
  refine ⟨rfl, rfl, ?_, ?_, ?_, ?_⟩
  · intro hany
    have hsome : (st.messages.find? (msgIdMatch messageId)).isSome := by
      rw [List.find?_isSome]
      exact List.any_eq_true.mp hany
    obtain ⟨m, hm⟩ := Option.isSome_iff_exists.mp hsome
    constructor
    · exact ⟨_, _, by unfold updateMessageStatus; rw [hm]⟩
    · exact ⟨_, _, by unfold markMessageAsRead; rw [hm]⟩
  · intro hany
    have hnone : st.messages.find? (msgIdMatch messageId) = none := by
      rw [List.find?_eq_none]
      intro x hx
      exact (List.any_eq_false.mp hany) x hx
    constructor
    · unfold updateMessageStatus; rw [hnone]
    · unfold markMessageAsRead; rw [hnone]
  · unfold opForbidden updateMessageStatus
    cases st.messages.find? (msgIdMatch messageId) <;> rfl
  · unfold opForbidden markMessageAsRead
    cases st.messages.find? (msgIdMatch messageId) <;> rfl

/-- Witness for C10: carol is no participant of conversation conv1,
yet her message.status handler call behaves exactly as the sender
alice's, and the service succeeds on the existing message m1. -/
theorem messageStatus_no_ownership_check_witness :
    (handleMessageStatus exStore exUserC "m1" MessageStatus.DELIVERED =
      handleMessageStatus exStore exUserA "m1" MessageStatus.DELIVERED) ∧
    ((∃ mr st', updateMessageStatus exStore "m1" MessageStatus.DELIVERED =
        (Except.ok mr, st')) ∧
     (∃ mr st', markMessageAsRead exStore "m1" = (Except.ok mr, st'))) :=
  ⟨(messageStatus_no_ownership_check exStore exUserC exUserA "m1"
      MessageStatus.DELIVERED).1,
   (messageStatus_no_ownership_check exStore exUserC exUserA "m1"
      MessageStatus.DELIVERED).2.2.1 (by decide)⟩

def exSock1 : SocketConn := { sid := "s1", userId := "alice" }

def exSock2 : SocketConn := { sid := "s2", userId := "alice" }

/-- C3: alice holds two live sockets; when socket s1 disconnects,
handleDisconnect still sets her online flag to false even though socket
s2 remains live — no last-socket check is performed. -/
theorem handleDisconnect_ignores_other_sockets :
    handleDisconnect [exUserA] [exSock1, exSock2] exSock1 =
      Except.ok ([{ exUserA with online := false }], [exSock2]) := rfl

/-- C6 counterexample: message m1 has isRead false, and
updateMessageStatus to READ returns it with status READ while isRead
stays false, breaking the claimed isRead-iff-READ consistency. -/
theorem updateMessageStatus_breaks_isRead_cex :
    (updateMessageStatus exStore "m1" MessageStatus.READ).1 =
      Except.ok { message := { exMsg with status := MessageStatus.READ },
                  reactions := [] } ∧
    ({ exMsg with status := MessageStatus.READ } : Message).status =
      MessageStatus.READ ∧
    ({ exMsg with status := MessageStatus.READ } : Message).isRead = false :=
  ⟨rfl, rfl, rfl⟩

/-- C6 amended: sendMessage creates messages with status SENT and
isRead false, and markMessageAsRead sets isRead true and status READ
together, but updateMessageStatus writes only the status field and
returns the stored isRead flag unchanged for every status value, so the
isRead-iff-READ consistency is not maintained by it. -/
theorem messageReadConsistency_spec (st : Store) (freshId : String)
    (connectionId : Nat) (userId : String) (content : String)
    (messageId : String) (ct : MessageContentType) (s : MessageStatus) :
    (∀ m st', sendMessage st freshId connectionId userId content ct =
        (Except.ok m, st') →
      m.status = MessageStatus.SENT ∧ m.isRead = false) ∧
    (∀ mr st', markMessageAsRead st messageId = (Except.ok mr, st') →
      mr.message.isRead = true ∧ mr.message.status = MessageStatus.READ) ∧
    (∀ mr st', updateMessageStatus st messageId s = (Except.ok mr, st') →
      ∃ m, st.messages.find? (msgIdMatch messageId) = some m ∧
        mr.message.isRead = m.isRead ∧ mr.message.status = s) := by
  refine ⟨?_, ?_, ?_⟩
  · intro m st' h
    unfold sendMessage at h
    cases hf : st.connections.find? (sendableConn connectionId userId) with
    | none => rw [hf] at h; simp at h
    | some c =>
      rw [hf] at h
      simp only [Prod.mk.injEq, Except.ok.injEq] at h
      obtain ⟨rfl, rfl⟩ := h
      exact ⟨rfl, rfl⟩
  · intro mr st' h
    unfold markMessageAsRead at h
    cases hf : st.messages.find? (msgIdMatch messageId) with
    | none => rw [hf] at h; simp at h
    | some m =>
      rw [hf] at h
      simp only [Prod.mk.injEq, Except.ok.injEq] at h
      obtain ⟨rfl, rfl⟩ := h
      exact ⟨rfl, rfl⟩
  · intro mr st' h
    unfold updateMessageStatus at h
    cases hf : st.messages.find? (msgIdMatch messageId) with
    | none => rw [hf] at h; simp at h
    | some m =>
      rw [hf] at h
      simp only [Prod.mk.injEq, Except.ok.injEq] at h
      obtain ⟨rfl, rfl⟩ := h
      exact ⟨m, rfl, rfl, rfl⟩

/-- Witness for C6 amended: markMessageAsRead on the fixture message m1
yields isRead true and status READ together. -/
theorem messageReadConsistency_spec_witness :
    ({ exMsg with isRead := true, status := MessageStatus.READ } : Message).isRead =
      true ∧
    ({ exMsg with isRead := true, status := MessageStatus.READ } : Message).status =
      MessageStatus.READ :=
  (messageReadConsistency_spec exStore "m2" 7 "alice" "yo" "m1"
      MessageContentType.TEXT MessageStatus.SENT).2.1
    { message := { exMsg with isRead := true, status := MessageStatus.READ },
      reactions := [] }
    (markMessageAsRead exStore "m1").2 rfl

/-- C8 counterexample: with no matching connection, the message:send
handler lets the NotFoundException escape instead of returning a
structured failure acknowledgement. -/
theorem handleSendMessage_raises_cex :
    (handleSendMessage emptyStore "m1" "alice"
        { conversationId := 7, content := "hi", contentType := none }).1 =
      HandlerResult.raised (ChatError.notFound connectionNotFoundMsg) ∧
    HandlerResult.isFailureAck
      (HandlerResult.raised (ChatError.notFound connectionNotFoundMsg)) =
      false := by decide

/-- C8 amended: the reaction add/remove, status and read handlers catch
every service error and return a structured failure acknowledgement
(an exception never escapes them), while the message:send and
message:mark-seen handlers have no handler-level catch: whenever the
underlying service call errors, the exception escapes the handler. -/
theorem gateway_ack_spec (st : Store) (freshId : String) (user : User)
    (rd : ReactionEventData) (rrd : ReactionRemoveData) (messageId : String)
    (s : MessageStatus) (userId : String) (p : SendMessagePayload)
    (cid : Nat) :
    ((handleMessageReaction st freshId user rd).1.isRaised = false) ∧
    (∀ e, (addReaction st freshId user.id
        { messageId := rd.messageId, type := rd.type, emoji := rd.emoji }).1 =
        Except.error e →
      (handleMessageReaction st freshId user rd).1 =
        HandlerResult.failureAck e.msg) ∧
    ((handleMessageReactionRemove st user rrd).1.isRaised = false) ∧
    (∀ e, (removeReaction st user.id rrd.messageId rrd.type).1 =
        Except.error e →
      (handleMessageReactionRemove st user rrd).1 =
        HandlerResult.failureAck e.msg) ∧
    ((handleMessageStatus st user messageId s).1.isRaised = false) ∧
    (∀ e, (updateMessageStatus st messageId s).1 = Except.error e →
      (handleMessageStatus st user messageId s).1 =
        HandlerResult.failureAck e.msg) ∧
    ((handleMessageRead st user messageId).1.isRaised = false) ∧
    (∀ e, (markMessageAsRead st messageId).1 = Except.error e →
      (handleMessageRead st user messageId).1 =
        HandlerResult.failureAck e.msg) ∧
    (∀ e, (sendMessage st freshId p.conversationId userId p.content
        (p.contentType.getD MessageContentType.TEXT)).1 = Except.error e →
      (handleSendMessage st freshId userId p).1 = HandlerResult.raised e) ∧
    (∀ e, (markMessagesAsSeen st cid userId).1 = Except.error e →
      (handleMarkSeen st userId cid).1 = HandlerResult.raised e) := by
  refine ⟨?_, ?_, ?_, ?_, ?_, ?_, ?_, ?_, ?_, ?_⟩
  · rcases h : addReaction st freshId user.id
        { messageId := rd.messageId, type := rd.type, emoji := rd.emoji } with
      ⟨res, st'⟩
    cases res <;> simp [handleMessageReaction, h, HandlerResult.isRaised]
  · intro e he
    rcases h : addReaction st freshId user.id
        { messageId := rd.messageId, type := rd.type, emoji := rd.emoji } with
      ⟨res, st'⟩
    rw [h] at he
    simp only at he
    subst he
    simp [handleMessageReaction, h]
  · rcases h : removeReaction st user.id rrd.messageId rrd.type with ⟨res, st'⟩
    cases res <;>
      simp [handleMessageReactionRemove, h, HandlerResult.isRaised]
  · intro e he
    rcases h : removeReaction st user.id rrd.messageId rrd.type with ⟨res, st'⟩
    rw [h] at he
    simp only at he
    subst he
    simp [handleMessageReactionRemove, h]
  · rcases h : updateMessageStatus st messageId s with ⟨res, st'⟩
    cases res <;> simp [handleMessageStatus, h, HandlerResult.isRaised]
  · intro e he
    rcases h : updateMessageStatus st messageId s with ⟨res, st'⟩
    rw [h] at he
    simp only at he
    subst he
    simp [handleMessageStatus, h]
  · rcases h : markMessageAsRead st messageId with ⟨res, st'⟩
    cases res <;> simp [handleMessageRead, h, HandlerResult.isRaised]
  · intro e he
    rcases h : markMessageAsRead st messageId with ⟨res, st'⟩
    rw [h] at he
    simp only at he
    subst he
    simp [handleMessageRead, h]
  · intro e he
    rcases h : sendMessage st freshId p.conversationId userId p.content
        (p.contentType.getD MessageContentType.TEXT) with ⟨res, st'⟩
    rw [h] at he
    simp only at he
    subst he
    simp [handleSendMessage, h]
  · intro e he
    rcases h : markMessagesAsSeen st cid userId with ⟨res, st'⟩
    rw [h] at he
    simp only at he
    subst he
    simp [handleMarkSeen, h]

/-- Witness for C8 amended: a reaction add on an empty store errors
with a missing message and the handler converts that error into the
structured failure acknowledgement carrying its message string, while
the missing-connection error escapes the message:send handler as a
raised exception. -/
theorem gateway_ack_spec_witness :
    ((handleMessageReaction emptyStore "r9" exUserA
        { messageId := "nope", type := ReactionType.LIKE, emoji := none }).1 =
      HandlerResult.failureAck (ChatError.notFound messageNotFoundMsg).msg) ∧
    ((handleSendMessage emptyStore "m9" "alice"
        { conversationId := 7, content := "hi", contentType := none }).1 =
      HandlerResult.raised (ChatError.notFound connectionNotFoundMsg)) :=
  ⟨(gateway_ack_spec emptyStore "r9" exUserA
      { messageId := "nope", type := ReactionType.LIKE, emoji := none }
      { messageId := "nope", type := "LIKE" } "nope" MessageStatus.SENT
      "alice" { conversationId := 7, content := "hi", contentType := none }
      7).2.1 (ChatError.notFound messageNotFoundMsg) rfl,
   (gateway_ack_spec emptyStore "m9" exUserA
      { messageId := "nope", type := ReactionType.LIKE, emoji := none }
      { messageId := "nope", type := "LIKE" } "nope" MessageStatus.SENT
      "alice" { conversationId := 7, content := "hi", contentType := none }
      7).2.2.2.2.2.2.2.2.1 (ChatError.notFound connectionNotFoundMsg) rfl⟩

/-- If no reaction of the (message, user, type) triple is counted in
the store, the duplicate lookup inside addReaction comes up empty. -/
theorem findDup_eq_none_of_countUT_zero (st : Store) (mid : String)
    (u : String) (t : ReactionType) (h : countUT st mid u t = 0) :
    (reactionsOf st mid).find? (sameUserAndType u t) = none := by
  rw [List.find?_eq_none]
  intro r hr hp
  unfold reactionsOf at hr
  rw [List.mem_filter] at hr
  obtain ⟨hmem, hmid⟩ := hr
  unfold countUT at h
  have hnot := List.countP_eq_zero.mp h r hmem
  apply hnot
  unfold reactionMatch
  unfold sameUserAndType at hp
  simp only [decide_eq_true_eq] at hmid hp ⊢
  exact ⟨hmid, hp.1, hp.2⟩

/-- C2 counterexample: bob already reacted LIKE on message m1; a second
addReaction is rejected with BadRequestException, which is not a
Conflict error. -/
theorem addReaction_duplicate_not_conflict_cex :
    (addReaction exStoreLike "r2" "bob"
        { messageId := "m1", type := ReactionType.LIKE, emoji := none }).1 =
      Except.error (ChatError.badRequest reactionExistsMsg) ∧
    ChatError.isConflict (ChatError.badRequest reactionExistsMsg) = false :=
  ⟨rfl, rfl⟩

/-- C2 amended: addReaction fails with BadRequest (not Conflict) when a
Reaction with the same (message, user, type) triple already exists, and
otherwise inserts the reaction; calling it twice in sequence with the
same triple yields one success and one BadRequest, and the message ends
with exactly one reaction of that type from that user. -/
theorem addReaction_spec (st : Store) (fid1 : String) (fid2 : String)
    (u : String) (dto : CreateReactionDto) :
    (∀ m r, st.messages.find? (msgIdMatch dto.messageId) = some m →
      (reactionsOf st dto.messageId).find? (sameUserAndType u dto.type) =
        some r →
      addReaction st fid1 u dto =
        (Except.error (ChatError.badRequest reactionExistsMsg), st)) ∧
    (∀ m, st.messages.find? (msgIdMatch dto.messageId) = some m →
      countUT st dto.messageId u dto.type = 0 →
      ∃ mr st1, addReaction st fid1 u dto = (Except.ok mr, st1) ∧
        countUT st1 dto.messageId u dto.type = 1 ∧
        addReaction st1 fid2 u dto =
          (Except.error (ChatError.badRequest reactionExistsMsg), st1)) := by
  constructor
  · intro m r hm hr
    unfold addReaction
    rw [hm, hr]
  · intro m hm hcnt
    have hnone : (reactionsOf st dto.messageId).find? (sameUserAndType u dto.type) =
        none :=
      findDup_eq_none_of_countUT_zero st dto.messageId u dto.type hcnt
    refine ⟨{ message := m,
              reactions := reactionsOf
                { st with reactions := st.reactions ++
                  [{ id := fid1, type := dto.type, emoji := dto.emoji,
                     messageId := dto.messageId, userId := u }] }
                dto.messageId },
            { st with reactions := st.reactions ++
              [{ id := fid1, type := dto.type, emoji := dto.emoji,
                 messageId := dto.messageId, userId := u }] }, ?_, ?_, ?_⟩
    · unfold addReaction
      rw [hm, hnone]
    · have hcnt' : st.reactions.countP (reactionMatch dto.messageId u dto.type) = 0 :=
        hcnt
      simp [countUT, List.countP_append, hcnt', reactionMatch]
    · unfold addReaction
      have hm1 : ({ st with reactions := st.reactions ++
          [{ id := fid1, type := dto.type, emoji := dto.emoji,
             messageId := dto.messageId, userId := u }] } : Store).messages.find?
          (msgIdMatch dto.messageId) = some m := hm
      rw [hm1]
      have h2 : reactionsOf
          { st with reactions := st.reactions ++
            [{ id := fid1, type := dto.type, emoji := dto.emoji,
               messageId := dto.messageId, userId := u }] } dto.messageId =
          reactionsOf st dto.messageId ++
            [{ id := fid1, type := dto.type, emoji := dto.emoji,
               messageId := dto.messageId, userId := u }] := by
        simp [reactionsOf, List.filter_append]
      have h3 : (reactionsOf
          { st with reactions := st.reactions ++
            [{ id := fid1, type := dto.type, emoji := dto.emoji,
               messageId := dto.messageId, userId := u }] }
          dto.messageId).find? (sameUserAndType u dto.type) =
          some { id := fid1, type := dto.type, emoji := dto.emoji,
                 messageId := dto.messageId, userId := u } := by
        rw [h2, List.find?_append, hnone]
        simp [sameUserAndType]
      rw [h3]

/-- Witness for C2 amended: bob adds a LIKE on m1 twice; the first call
succeeds, the second fails with BadRequest, and exactly one LIKE by bob
remains on m1. -/
theorem addReaction_spec_witness :
    ∃ mr st1, addReaction exStore "r1" "bob"
        { messageId := "m1", type := ReactionType.LIKE, emoji := none } =
        (Except.ok mr, st1) ∧
      countUT st1 "m1" "bob" ReactionType.LIKE = 1 ∧
      addReaction st1 "r2" "bob"
        { messageId := "m1", type := ReactionType.LIKE, emoji := none } =
        (Except.error (ChatError.badRequest reactionExistsMsg), st1) :=
  (addReaction_spec exStore "r1" "r2" "bob"
    { messageId := "m1", type := ReactionType.LIKE, emoji := none }).2
    exMsg rfl rfl

/-- The isReactionType guard accepts the serialized name of every
ReactionType value and yields that value back. -/
theorem parseReactionType_name (t : ReactionType) :
    parseReactionType (reactionTypeName t) = some t := by
  cases t <;> rfl

/-- C9: removeReaction with a valid reaction type fails with NotFound
and leaves the store (so every Reaction row) untouched when no reaction
of the (message, user, type) triple exists; when one exists it deletes
exactly that row and returns the refreshed message with the remaining
reactions. -/
theorem removeReaction_spec (st : Store) (userId : String)
    (messageId : String) (t : ReactionType) :
    (st.reactions.find? (reactionMatch messageId userId t) = none →
      removeReaction st userId messageId (reactionTypeName t) =
        (Except.error (ChatError.notFound reactionNotFoundMsg), st)) ∧
    (∀ r, st.reactions.find? (reactionMatch messageId userId t) = some r →
      ∀ m, st.messages.find? (msgIdMatch messageId) = some m →
      removeReaction st userId messageId (reactionTypeName t) =
        (Except.ok
            { message := m,
              reactions := (reactionsOf
                { st with reactions :=
                  st.reactions.filter (fun x => decide (x.id ≠ r.id)) }
                messageId) },
          { st with reactions :=
            st.reactions.filter (fun x => decide (x.id ≠ r.id)) })) := by
  constructor
  · intro h
    simp only [removeReaction, parseReactionType_name, h]
  · intro r hr m hm
    simp only [removeReaction, parseReactionType_name, hr, hm]

/-- Witness for C9: removing bob's LIKE from m1 deletes the single
reaction row and returns m1 with no reactions left. -/
theorem removeReaction_spec_witness :
    removeReaction exStoreLike "bob" "m1" (reactionTypeName ReactionType.LIKE) =
      (Except.ok { message := exMsg, reactions := ([] : List Reaction) },
        { exStoreLike with reactions := ([] : List Reaction) }) :=
  (removeReaction_spec exStoreLike "bob" "m1" ReactionType.LIKE).2
    exReaction rfl exMsg rfl

/-- Two Connection rows that are both ACCEPTED and link the same
unordered pair of users (in either orientation). -/
def sameAcceptedPair (c : Connection) (d : Connection) : Bool :=
  decide (c.status = ConnectionStatus.ACCEPTED ∧
    d.status = ConnectionStatus.ACCEPTED ∧
    ((c.requesterId = d.requesterId ∧ c.receiverId = d.receiverId) ∨
     (c.requesterId = d.receiverId ∧ c.receiverId = d.requesterId)))

/-- The uniqueness invariant: no two Connection rows of the table are
ACCEPTED for the same unordered pair of users. -/
def AcceptedUnique (cs : List Connection) : Prop :=
  List.Pairwise (fun c d => sameAcceptedPair c d = false) cs

/-- C7: the find-or-create step of createMessage preserves the
invariant that the store never holds two ACCEPTED Connections for the
same unordered pair of users: it searches both orientations for an
ACCEPTED connection and creates one only when that search found
nothing. -/
theorem createMessage_preserves_acceptedUnique (st : Store)
    (freshMsgId : String) (freshConnId : Nat) (conversationId : String)
    (senderId : String) (content : String)
    (hinv : AcceptedUnique st.connections) (res : Except ChatError Message)
    (st' : Store)
    (h : createMessage st freshMsgId freshConnId conversationId senderId
      content = (res, st')) :
    AcceptedUnique st'.connections := by
  unfold createMessage at h
  cases hconv : st.conversations.find? (fun cv => decide (cv.id = conversationId)) with
  | none =>
    rw [hconv] at h
    simp only [Prod.mk.injEq] at h
    obtain ⟨-, rfl⟩ := h
    exact hinv
  | some conv =>
    rw [hconv] at h
    simp only at h
    cases hpart : conv.participants.find? (fun p => decide (p ≠ senderId)) with
    | none =>
      rw [hpart] at h
      simp only [Prod.mk.injEq] at h
      obtain ⟨-, rfl⟩ := h
      exact hinv
    | some other =>
      rw [hpart] at h
      simp only at h
      cases hfind : st.connections.find? (acceptedBetween senderId other) with
      | some conn =>
        rw [hfind] at h
        simp only [Prod.mk.injEq] at h
        obtain ⟨-, rfl⟩ := h
        exact hinv
      | none =>
        rw [hfind] at h
        simp only at h
        cases hdup : st.connections.any (fun c =>
            decide (c.requesterId = senderId ∧ c.receiverId = other)) with
        | true =>
          rw [hdup] at h
          simp only [if_true, Prod.mk.injEq] at h
          obtain ⟨-, rfl⟩ := h
          exact hinv
        | false =>
          rw [hdup] at h
          simp only [Bool.false_eq_true, if_false, Prod.mk.injEq] at h
          obtain ⟨-, rfl⟩ := h
          show AcceptedUnique (st.connections ++
            [{ id := freshConnId, requesterId := senderId,
               receiverId := other, status := ConnectionStatus.ACCEPTED }])
          unfold AcceptedUnique
          rw [List.pairwise_append]
          refine ⟨hinv, List.pairwise_singleton _ _, ?_⟩
          intro a ha b hb
          simp only [List.mem_singleton] at hb
          subst hb
          have hno := List.find?_eq_none.mp hfind a ha
          unfold acceptedBetween at hno
          simp only [decide_eq_true_eq] at hno
          unfold sameAcceptedPair
          rw [decide_eq_false_iff_not]
          rintro ⟨ha1, -, hor⟩
          exact hno ⟨hor, ha1⟩

/-- Witness for C7: starting from a store with no connections at all,
createMessage lazily creates the single ACCEPTED connection and the
uniqueness invariant still holds afterwards. -/
theorem createMessage_preserves_acceptedUnique_witness :
    AcceptedUnique
      (createMessage exStoreNoConn "m9" 42 "conv1" "alice" "hey").2.connections :=
  createMessage_preserves_acceptedUnique exStoreNoConn "m9" 42 "conv1"
    "alice" "hey" List.Pairwise.nil
    (createMessage exStoreNoConn "m9" 42 "conv1" "alice" "hey").1
    (createMessage exStoreNoConn "m9" 42 "conv1" "alice" "hey").2 rfl

end GlobalConnect
